import Mathlib

/-!
Shallow embedding of the fraud-detection monitoring subsystem: the
prediction-log store, feedback correlator, performance-metric engine and
drift detector of `utils/monitoring.py`, together with the feedback path of
`api.py` (`prediction_feedback` / `process_feedback`).

Modelling conventions:
* A JSONL log file is a `List (Option LogEntry)`: `some e` is a line that
  parses, `none` is a malformed line on which `json.loads` raises.
  `json.dumps` followed by `json.loads` is the identity on well-formed
  entries, so serialisation is modelled as `some`.
* `datetime` values are modelled as integers; ISO-format strings compare
  chronologically, so `<`, `>` on `Int` model the comparisons of the source.
* Numeric JSON values are rationals; a JSON scalar that may be a number or
  a string is a `JVal`.
* A Python dict is an association list in insertion order.
* A raised exception that propagates out of a function is `Option.none` in
  the result of that function.
-/

namespace FraudMonitoring

/-- A JSON scalar as stored in a log line or metrics dict: a number or a
string. -/
inductive JVal where
  | num : ℚ → JVal
  | str : String → JVal
deriving DecidableEq, Repr

/-- One parsed line of `prediction_logs.jsonl`. The `prediction` key is
emitted by both writers (`log_prediction` always, `log_batch_predictions`
with value null when the prediction column is missing), so it is an
`Option` only to model a null value. For `true_label` and `probability`,
"key absent" and "key present with null" both behave identically in every
reader, so both are `none`. -/
structure LogEntry where
  prediction_id : String
  timestamp : Int
  prediction : Option ℚ
  probability : Option ℚ
  true_label : Option ℚ
  features : List (String × JVal)
  metadata : Option (List (String × String)) := none
deriving DecidableEq, Repr

/-- The strict log-reading loop of `calculate_performance_metrics`
(monitoring.py 166-169), `get_recent_predictions` (350-353) and
`process_feedback` (api.py 349-355): `json.loads(line)` with no
try/except, so a malformed line raises and aborts the whole read
(`Option.none`). -/
def load_logs_strict : List (Option LogEntry) → Option (List LogEntry)
  | [] => some []
  | Option.none :: _ => none
  | some e :: rest => (load_logs_strict rest).map (fun logs => e :: logs)

/-- The lenient log-reading loop of `extract_predictions_for_monitoring`
(monitoring.py 508-514): `json.loads` wrapped in try/except
`JSONDecodeError`, so malformed lines are skipped. -/
def load_logs_skipping : List (Option LogEntry) → List LogEntry
  | [] => []
  | Option.none :: rest => load_logs_skipping rest
  | some e :: rest => e :: load_logs_skipping rest

/-- Model of `ModelMonitor.log_prediction` (monitoring.py 44-82): append one entry
to the log file. The `if metadata:` guard keeps the metadata key only for
a truthy (non-None, non-empty) dict. Returns the file after the call. -/
def log_prediction (enable_monitoring : Bool) (prediction_id : String)
    (features : List (String × JVal)) (prediction : ℚ)
    (probability : Option ℚ) (true_label : Option ℚ)
    (metadata : Option (List (String × String))) (now : Int)
    (file : List (Option LogEntry)) : List (Option LogEntry) :=
  if !enable_monitoring then file
  else
    file ++ [some
      { prediction_id := prediction_id
        timestamp := now
        prediction := some prediction
        probability := probability
        true_label := true_label
        features := features
        metadata := match metadata with
          | some m => if m = [] then none else some m
          | none => none }]

/-- The per-record window test of `calculate_performance_metrics`
(monitoring.py 174-183): skip when a start bound is given and the record
is strictly before it, or an end bound is given and the record is strictly
after it — both bounds inclusive. -/
def keep_in_window (start_time end_time : Option Int) (e : LogEntry) : Bool :=
  if start_time.any (fun s => decide (e.timestamp < s)) then false
  else if end_time.any (fun t => decide (t < e.timestamp)) then false
  else true

/-- The time filter of `calculate_performance_metrics` (monitoring.py
172-185): applied only when at least one bound is supplied. -/
def filter_logs_by_time (logs : List LogEntry) (start_time end_time : Option Int) :
    List LogEntry :=
  if start_time.isSome || end_time.isSome then
    logs.filter (keep_in_window start_time end_time)
  else logs

/-- The label extraction of `calculate_performance_metrics` (monitoring.py
187-198): keep records whose `true_label` key is present and non-null
(the `prediction` key is always present, see `LogEntry`), producing
(true label, prediction) pairs. -/
def labeled_pairs (logs : List LogEntry) : List (ℚ × Option ℚ)
 :=
  logs.filterMap (fun e => e.true_label.map (fun y => (y, e.prediction)))

/-- Whether a rational is an integral value (a Python float such as 2.0).
sklearn type_of_target classifies non-integral float targets as
continuous, on which every metric call below raises. -/
def is_integral (q : ℚ) : Bool := q.den == 1

/-- The distinct class values among the true labels and the non-null
predictions, as sklearn collects them to type the target. -/
def class_values (pairs : List (ℚ × Option ℚ)) : List ℚ :=
  (pairs.map Prod.fst ++ pairs.filterMap Prod.snd).foldl
    (fun acc q => if q ∈ acc then acc else acc ++ [q]) []

/-- Model of the validity checks sklearn performs inside the metric block
(monitoring.py 207-210): `accuracy_score` raises ValueError on a null
prediction or a continuous (non-integral) value; `precision_score`,
`recall_score` and `f1_score` with average binary and pos_label 1
additionally raise when three or more classes are present, or when
exactly two classes are present and 1 is not one of them. `true` means
every one of the four calls succeeds; any failure raises before the
metrics history is touched, so the four failure points are observably
one. -/
def sklearn_metrics_ok (pairs : List (ℚ × Option ℚ)) : Bool :=
  pairs.all (fun p => p.2.isSome)
    && pairs.all (fun p => is_integral p.1 && p.2.all is_integral)
    && (decide ((class_values pairs).length ≤ 1)
        || (decide ((class_values pairs).length = 2)
            && decide ((1 : ℚ) ∈ class_values pairs)))

/-- Value returned by sklearn `accuracy_score` on inputs accepted by
`sklearn_metrics_ok`: fraction of pairs whose prediction equals the true
label. -/
def accuracy (pairs : List (ℚ × Option ℚ)) : ℚ :=
  (pairs.countP (fun p => decide (p.2 = some p.1)) : ℚ) / (pairs.length : ℚ)

/-- True positives for the binary metrics (positive class 1). -/
def tp_count (pairs : List (ℚ × Option ℚ)) : ℕ :=
  pairs.countP (fun p => decide (p.2 = some 1) && decide (p.1 = 1))

/-- False positives for the binary metrics. -/
def fp_count (pairs : List (ℚ × Option ℚ)) : ℕ :=
  pairs.countP (fun p => decide (p.2 = some 1) && decide (p.1 ≠ 1))

/-- False negatives for the binary metrics. -/
def fn_count (pairs : List (ℚ × Option ℚ)) : ℕ :=
  pairs.countP (fun p => decide (p.2 ≠ some 1) && decide (p.1 = 1))

/-- Value returned by sklearn `precision_score` with `zero_division=0`
on inputs accepted by `sklearn_metrics_ok`. -/
def precision (pairs : List (ℚ × Option ℚ)) : ℚ :=
  if tp_count pairs + fp_count pairs = 0 then 0
  else (tp_count pairs : ℚ) / ((tp_count pairs : ℚ) + (fp_count pairs : ℚ))

/-- Value returned by sklearn `recall_score` with `zero_division=0` on
inputs accepted by `sklearn_metrics_ok`. -/
def recall_score (pairs : List (ℚ × Option ℚ)) : ℚ :=
  if tp_count pairs + fn_count pairs = 0 then 0
  else (tp_count pairs : ℚ) / ((tp_count pairs : ℚ) + (fn_count pairs : ℚ))

/-- Value returned by sklearn `f1_score` with `zero_division=0` on
inputs accepted by `sklearn_metrics_ok`, as the harmonic mean of
precision and recall. -/
def f1 (pairs : List (ℚ × Option ℚ)) : ℚ :=
  if precision pairs + recall_score pairs = 0 then 0
  else 2 * precision pairs * recall_score pairs / (precision pairs + recall_score pairs)

/-- The metrics dict built at monitoring.py 205-210 with the timestamp
added at line 224, in insertion order. -/
def metrics_dict (pairs : List (ℚ × Option ℚ)) (now : Int) : List (String × JVal) :=
  [ ("count", JVal.num (pairs.length : ℚ)),
    ("accuracy", JVal.num (accuracy pairs)),
    ("precision", JVal.num (precision pairs)),
    ("recall", JVal.num (recall_score pairs)),
    ("f1", JVal.num (f1 pairs)),
    ("timestamp", JVal.num (now : ℚ)) ]

/-- Result of `calculate_performance_metrics`: the returned metrics dict
and the metrics history (performance_metrics.json) after the call. -/
structure MetricsResult where
  metrics : List (String × JVal)
  history : List (List (String × JVal))
deriving DecidableEq, Repr

/-- Model of `ModelMonitor.calculate_performance_metrics` (monitoring.py 143-238).
Returns `Option.none` when an exception propagates to the caller: either
`json.loads` raises on a malformed line during the read, or one of the
sklearn metric calls at lines 207-210 raises ValueError on labeled data
that fails `sklearn_metrics_ok` — in both cases the raise happens before
the metrics history is loaded or written, so the history is untouched. A
missing log file returns `{}` with the history untouched, exactly like
the disabled case, and is not modelled separately. The alert check at
line 236 only logs. -/
def calculate_performance_metrics (enable_monitoring : Bool)
    (file : List (Option LogEntry)) (history : List (List (String × JVal)))
    (start_time end_time : Option Int) (now : Int) : Option MetricsResult :=
  if !enable_monitoring then some ⟨[], history⟩
  else
    match load_logs_strict file with
    | none => none
    | some logs =>
      let pairs := labeled_pairs (filter_logs_by_time logs start_time end_time)
      if pairs.isEmpty then some ⟨[], history⟩
      else if !sklearn_metrics_ok pairs then none
      else
        let m := metrics_dict pairs now
        some ⟨m, history ++ [m]⟩

/-- Model of `process_feedback` (api.py 335-373), the background task behind the
feedback endpoint. The whole body is wrapped in a try/except that only
logs, so a `json.loads` failure while reading aborts with no write, and a
failure inside the metrics recomputation is swallowed after the log has
already been rewritten. Every record whose `prediction_id` matches gets
its `true_label` set; if none matches, a warning is logged and nothing is
written. Returns the log file and the metrics history after the call. -/
def process_feedback (prediction_id : String) (actual_label : ℚ)
    (file : List (Option LogEntry)) (history : List (List (String × JVal)))
    (performance_tracking enable_monitoring : Bool) (now : Int) :
    List (Option LogEntry) × List (List (String × JVal)) :=
  match load_logs_strict file with
  | none => (file, history)
  | some logs =>
    let updated := logs.any (fun e => e.prediction_id == prediction_id)
    let relabeled := logs.map (fun e =>
      if e.prediction_id == prediction_id
      then { e with true_label := some actual_label } else e)
    if !updated then (file, history)
    else
      let outFile := relabeled.map some
      if performance_tracking then
        match calculate_performance_metrics enable_monitoring outFile history
            none none now with
        | none => (outFile, history)
        | some r => (outFile, r.history)
      else (outFile, history)

/-- The HTTP status returned by the feedback endpoint. -/
inductive ApiResponse where
  | success
  | serviceUnavailable
  | internalError
deriving DecidableEq, Repr

/-- Model of `prediction_feedback` (api.py 297-333): the response sent to
the HTTP caller. 503 when the monitor dependency is not initialised;
when the log file does not exist, the HTTPException(404) raised inside
the try block is caught by the generic `except Exception` handler and
converted into a 500 internal error; otherwise 200 success — the actual
feedback processing runs later as a background task, after this response
is already sent. -/
def prediction_feedback (monitor_ready : Bool) (log_file_exists : Bool) :
    ApiResponse :=
  if !monitor_ready then ApiResponse.serviceUnavailable
  else if !log_file_exists then ApiResponse.internalError
  else ApiResponse.success

/-- One row of the DataFrame built by `get_recent_predictions`
(monitoring.py 376-385) and of the predictions frame of
`extract_predictions_for_monitoring` (540-549): the base fields only, the
features mapping is not among them. -/
structure PredictionRow where
  prediction_id : String
  timestamp : Int
  prediction : Option ℚ
  probability : Option ℚ
  true_label : Option ℚ
deriving DecidableEq, Repr

/-- Projection of a log entry to its base fields. -/
def LogEntry.toRow (e : LogEntry) : PredictionRow :=
  ⟨e.prediction_id, e.timestamp, e.prediction, e.probability, e.true_label⟩

/-- Stable insertion, newest first, used to model the Python stable sort
`filtered_logs.sort(key=timestamp, reverse=True)`: the element is placed
before the first element whose timestamp is not larger, so under the
right fold below the original order is kept among equal timestamps,
exactly as in the Python stable sort. -/
def insertByTsDesc (e : LogEntry) : List LogEntry → List LogEntry
  | [] => [e]
  | x :: xs =>
    if x.timestamp ≤ e.timestamp then e :: x :: xs else x :: insertByTsDesc e xs

/-- Sort newest first (monitoring.py 366). -/
def sortByTsDesc (logs : List LogEntry) : List LogEntry :=
  logs.foldr insertByTsDesc []

/-- Model of `ModelMonitor.get_recent_predictions` (monitoring.py 330-390): strict
read (a malformed line raises, `Option.none`), keep records with
`timestamp >= now - hours`, sort newest first, truncate to `limit`, and
project each record to its base fields — the features are dropped. The
look-back duration is in the same integral time unit as `timestamp`. -/
def get_recent_predictions (file : List (Option LogEntry)) (hours : Int)
    (limit : ℕ) (now : Int) : Option (List PredictionRow) :=
  match load_logs_strict file with
  | none => none
  | some logs =>
    let recent := logs.filter (fun e => decide (now - hours ≤ e.timestamp))
    some (((sortByTsDesc recent).take limit).map LogEntry.toRow)

/-- Model of `extract_predictions_for_monitoring` (monitoring.py 478-572): lenient
read (malformed lines skipped), optional time filter (same inclusive
bounds as the metrics engine), then a predictions frame of base fields
and a features frame of (prediction id, features) rows. Both writers
always emit a features dict, so every surviving record contributes a
features row. -/
def extract_predictions_for_monitoring (file : List (Option LogEntry))
    (start_date end_date : Option Int) :
    List PredictionRow × List (String × List (String × JVal)) :=
  let logs := load_logs_skipping file
  let logs :=
    if start_date.isSome || end_date.isSome then
      logs.filter (keep_in_window start_date end_date)
    else logs
  (logs.map LogEntry.toRow, logs.map (fun e => (e.prediction_id, e.features)))

/-- One pandas column as seen by the drift detector: its dtype class and
its values, `none` being a missing value (NaN). -/
structure Column where
  numeric : Bool
  values : List (Option ℚ)
deriving DecidableEq, Repr

/-- A pandas DataFrame as used by `detect_data_drift`: a row count and
named columns. -/
structure DriftFrame where
  nrows : ℕ
  cols : List (String × Column)
deriving DecidableEq, Repr

/-- Sorted insertion for the median computation. -/
def insertSorted (x : ℚ) : List ℚ → List ℚ
  | [] => [x]
  | y :: ys => if x ≤ y then x :: y :: ys else y :: insertSorted x ys

/-- pandas `Series.median` over the non-missing values: middle element of
the sorted values, or the mean of the two middle elements. -/
def median (xs : List ℚ) : ℚ :=
  let s := xs.foldr insertSorted []
  let n := s.length
  if n = 0 then 0
  else if n % 2 = 1 then s.getD (n / 2) 0
  else (s.getD (n / 2 - 1) 0 + s.getD (n / 2) 0) / 2

/-- pandas `col.fillna(col.median())` (monitoring.py 282-283): replace
each missing value by the median of the non-missing ones. -/
def fillna_median (c : Column) : List ℚ :=
  let m := median (c.values.filterMap id)
  c.values.map (fun v => v.getD m)

/-- Per-feature entry of a drift report (monitoring.py 290-294). -/
structure FeatureDrift where
  ks_stat : ℚ
  p_value : ℚ
  drift_detected : Bool
deriving DecidableEq, Repr

/-- A drift report (monitoring.py 260-266 plus the per-feature entries
accumulated by the loop). -/
structure DriftReport where
  timestamp : Int
  n_reference : ℕ
  n_current : ℕ
  features : List (String × FeatureDrift)
  overall_drift : Bool
deriving DecidableEq, Repr

/-- The body of the feature loop of `detect_data_drift` (monitoring.py
268-297) for one column name: skip (result unchanged) when the column is
absent from either frame, non-numeric in either, or entirely missing in
either; otherwise fill missing values with the median of that same side, ask
the external two-sample KS test `ks` for (statistic, p-value), record the
feature with `drift_detected = p_value < threshold`, and fold it into the
overall verdict. -/
def drift_step (ks : List ℚ → List ℚ → ℚ × ℚ)
    (reference_data current_data : DriftFrame) (threshold : ℚ)
    (acc : DriftReport) (column : String) : DriftReport :=
  match reference_data.cols.lookup column, current_data.cols.lookup column with
  | some refc, some curc =>
    if !refc.numeric || !curc.numeric then acc
    else if refc.values.all Option.isNone || curc.values.all Option.isNone then acc
    else
      let p := ks (fillna_median refc) (fillna_median curc)
      let dd := decide (p.2 < threshold)
      { acc with
          features := acc.features ++ [(column, ⟨p.1, p.2, dd⟩)]
          overall_drift := acc.overall_drift || dd }
  | _, _ => acc

/-- Model of `ModelMonitor.detect_data_drift` (monitoring.py 240-328). The
two-sample Kolmogorov-Smirnov test is scipy, an external collaborator,
and enters as the oracle `ks`. Returns `none` when drift detection is
disabled in the config (the source returns `{}` without touching the
history); otherwise the report and the drift history after the append. -/
def detect_data_drift (drift_detection : Bool)
    (ks : List ℚ → List ℚ → ℚ × ℚ)
    (reference_data current_data : DriftFrame)
    (feature_columns : List String) (threshold : ℚ) (now : Int)
    (drift_history : List DriftReport) :
    Option (DriftReport × List DriftReport) :=
  if !drift_detection then none
  else
    let report := feature_columns.foldl
      (drift_step ks reference_data current_data threshold)
      { timestamp := now
        n_reference := reference_data.nrows
        n_current := current_data.nrows
        features := []
        overall_drift := false }
    some (report, drift_history ++ [report])

/-- The DataFrame handed to `log_batch_predictions`: a row count and
named columns of JSON scalars, column-major. -/
structure BatchFrame where
  nrows : ℕ
  cols : List (String × List JVal)
deriving DecidableEq, Repr

/-- pandas `name in df.columns` / `name in row` (a Series indexed by the
column names). -/
def BatchFrame.hasCol (df : BatchFrame) (c : String) : Bool :=
  (df.cols.lookup c).isSome

/-- pandas `df[name] = values`: overwrite the column in place when it
exists, otherwise append it as the last column. -/
def BatchFrame.setCol (df : BatchFrame) (name : String) (vals : List JVal) :
    BatchFrame :=
  if df.hasCol name then
    { df with cols := df.cols.map (fun p => if p.1 = name then (p.1, vals) else p) }
  else { df with cols := df.cols ++ [(name, vals)] }

/-- The cell `row_i[c]` of a batch frame. -/
def BatchFrame.cell (df : BatchFrame) (c : String) (i : ℕ) : Option JVal :=
  (df.cols.lookup c).bind (fun vs => vs[i]?)

/-- Python `str()` applied to a cell value. -/
def JVal.pyStr : JVal → String
  | .str s => s
  | .num q => toString q

/-- Python `float()` applied to a cell value; only numeric cells occur on
the prediction, probability and label columns in this subsystem. -/
def JVal.pyFloat : JVal → ℚ
  | .num q => q
  | .str _ => 0

/-- The generated batch IDs (monitoring.py 107-110): a date-stamped
prefix plus the row ordinal. -/
def batch_ids (date : String) (n : ℕ) : List JVal :=
  (List.range n).map (fun i => JVal.str ("pred_" ++ date ++ "_" ++ toString i))

/-- The per-row log entries built by `log_batch_predictions` (monitoring.py
113-132): features are the feature columns present in the frame; the
prediction key is always written (null when the column is absent); the
probability and label keys only when their column is named and present. -/
def batch_entries (df : BatchFrame) (features_cols : List String)
    (prediction_col : String) (probability_col true_label_col : Option String)
    (id_col : String) (now : Int) : List LogEntry :=
  (List.range df.nrows).map (fun i =>
    { prediction_id := ((df.cell id_col i).map JVal.pyStr).getD ""
      timestamp := now
      prediction :=
        if df.hasCol prediction_col then (df.cell prediction_col i).map JVal.pyFloat
        else none
      probability := probability_col.bind (fun c =>
        if df.hasCol c then (df.cell c i).map JVal.pyFloat else none)
      true_label := true_label_col.bind (fun c =>
        if df.hasCol c then (df.cell c i).map JVal.pyFloat else none)
      features := features_cols.filterMap (fun c => (df.cell c i).map (fun v => (c, v)))
      metadata := none })

/-- Model of `ModelMonitor.log_batch_predictions` (monitoring.py 84-141). When no
usable id column is named, the source assigns a generated
`prediction_id` column directly on the argument DataFrame — an in-place
mutation of the object held by the caller. The first component of the result is the
caller-visible DataFrame after the call; the second is the log file after
the appended entries. -/
def log_batch_predictions (enable_monitoring : Bool)
    (predictions_df : BatchFrame) (features_cols : List String)
    (prediction_col : String)
    (probability_col true_label_col id_col : Option String)
    (date : String) (now : Int) (file : List (Option LogEntry)) :
    BatchFrame × List (Option LogEntry) :=
  if !enable_monitoring then (predictions_df, file)
  else
    let needsIds := match id_col with
      | none => true
      | some c => !predictions_df.hasCol c
    let df :=
      if needsIds then
        predictions_df.setCol "prediction_id" (batch_ids date predictions_df.nrows)
      else predictions_df
    let idc := if needsIds then "prediction_id" else id_col.getD ""
    let entries := batch_entries df features_cols prediction_col
      probability_col true_label_col idc now
    (df, file ++ entries.map some)

/-! Concrete scenario data used to instantiate the theorems below. -/

/-- A plain unlabeled log record. -/
def baseEntry : LogEntry :=
  { prediction_id := "p", timestamp := 0, prediction := some 0,
    probability := none, true_label := none, features := [], metadata := none }

/-- First of two records sharing prediction id "X" (the duplicate-ID
scenario of the spec). -/
def dupEntryA : LogEntry := { baseEntry with prediction_id := "X" }

/-- Second record with the same prediction id "X", logged later. -/
def dupEntryB : LogEntry := { baseEntry with prediction_id := "X", timestamp := 1 }

/-- A two-line log whose records share prediction id "X". -/
def dupFile : List (Option LogEntry) := [some dupEntryA, some dupEntryB]

/-- A correctly predicted negative (true label 0, predicted 0). -/
def eTN : LogEntry := { baseEntry with true_label := some 0 }

/-- A missed positive (true label 1, predicted 0). -/
def eFN : LogEntry := { baseEntry with true_label := some 1 }

/-- The metrics scenario of the spec: 100 labeled records, 80 true
negatives and 20 false negatives, the model never predicting fraud. -/
def c2_logs : List LogEntry := List.replicate 80 eTN ++ List.replicate 20 eFN

/-- The metrics scenario as a well-formed log file. -/
def c2_file : List (Option LogEntry) := c2_logs.map some

/-- The labeled pairs of the metrics scenario. -/
def c2_pairs : List (ℚ × Option ℚ) :=
  List.replicate 80 ((0 : ℚ), some (0 : ℚ)) ++ List.replicate 20 ((1 : ℚ), some (0 : ℚ))

/-- The metrics dict the source computes on the metrics scenario at clock 7. -/
def c2_metrics : List (String × JVal) :=
  [ ("count", JVal.num 100), ("accuracy", JVal.num (4 / 5)),
    ("precision", JVal.num 0), ("recall", JVal.num 0),
    ("f1", JVal.num 0), ("timestamp", JVal.num 7) ]

/-- A constant stand-in for the external KS test. -/
def ksZero : List ℚ → List ℚ → ℚ × ℚ := fun _ _ => (0, 0)

/-- A one-row reference frame with one numeric column. -/
def refFrame : DriftFrame := ⟨1, [("amount", ⟨true, [some 0]⟩)]⟩

/-- A one-row current frame with the same column. -/
def curFrame : DriftFrame := ⟨1, [("amount", ⟨true, [some 1]⟩)]⟩

/-- The drift report produced on the two frames above by the constant KS
oracle with threshold 1. -/
def driftReport0 : DriftReport := ⟨0, 1, 1, [("amount", ⟨0, 0, true⟩)], true⟩

/-- A two-row batch frame with a single feature column and no id column. -/
def df0 : BatchFrame := ⟨2, [("amount", [JVal.num 5, JVal.num 7])]⟩

/-! Helper lemmas about the two log readers. -/

/-- A fully well-formed file reads back strictly as its entries. -/
theorem load_logs_strict_map_some (logs : List LogEntry) :
    load_logs_strict (logs.map some) = some logs := by
  induction logs with
  | nil => rfl
  | cons e rest ih => simp [load_logs_strict, ih]

/-- A strict read only succeeds on a fully well-formed file, and then the
file is exactly its entries. -/
theorem load_logs_strict_eq_some (file : List (Option LogEntry))
    (logs : List LogEntry) (h : load_logs_strict file = some logs) :
    file = logs.map some := by
  induction file generalizing logs with
  | nil => simp [load_logs_strict] at h; simp [← h]
  | cons o rest ih =>
    match o with
    | Option.none => simp [load_logs_strict] at h
    | some e =>
      simp only [load_logs_strict, Option.map_eq_some'] at h
      obtain ⟨tl, htl, hcons⟩ := h
      subst hcons
      simp [ih tl htl]

/-- A malformed line makes the strict read raise. -/
theorem load_logs_strict_of_mem_none (file : List (Option LogEntry))
    (h : Option.none ∈ file) : load_logs_strict file = none := by
  induction file with
  | nil => simp at h
  | cons o rest ih =>
    match o with
    | Option.none => rfl
    | some e =>
      simp only [List.mem_cons] at h
      rcases h with h | h
      · exact absurd h.symm (by simp)
      · simp [load_logs_strict, ih h]

/-- The lenient read keeps exactly the well-formed lines, in order. -/
theorem load_logs_skipping_eq_filterMap (file : List (Option LogEntry)) :
    load_logs_skipping file = file.filterMap id := by
  induction file with
  | nil => rfl
  | cons o rest ih =>
    match o with
    | Option.none => simp [load_logs_skipping, ih]
    | some e => simp [load_logs_skipping, ih]

/-- The lenient read distributes over concatenation of the file. -/
theorem load_logs_skipping_append (a b : List (Option LogEntry)) :
    load_logs_skipping (a ++ b) =
      load_logs_skipping a ++ load_logs_skipping b := by
  induction a with
  | nil => rfl
  | cons o rest ih =>
    match o with
    | Option.none => simpa [load_logs_skipping] using ih
    | some e => simpa [load_logs_skipping] using ih

/-! Claim C1: feedback on duplicate prediction ids. -/

/-- C1 counterexample: on a log holding two records with prediction id
"X", `process_feedback "X" 1` does NOT leave the second occurrence
unlabeled — its true label afterwards is `some 1`, not absent, because
the scan updates every matching record rather than only the first. -/
theorem c1_counterexample :
    (((process_feedback "X" 1 dupFile [] true true 0).1.getD 1 none).bind
        LogEntry.true_label) = some 1 := by decide

/-- C1 (amended): submitting feedback sets `true_label` on EVERY record
whose `prediction_id` matches, in file order — with duplicate ids the
second occurrence is updated as well, not left unlabeled. Stated for any
position `i` of a matching record in a well-formed log. -/
theorem c1_feedback_updates_every_match
    (file : List (Option LogEntry)) (logs : List LogEntry)
    (pid : String) (label : ℚ) (history : List (List (String × JVal)))
    (performance_tracking enable_monitoring : Bool) (now : Int)
    (i : ℕ) (e : LogEntry)
    (hload : load_logs_strict file = some logs)
    (hi : logs[i]? = some e)
    (hmatch : e.prediction_id = pid) :
    (process_feedback pid label file history performance_tracking
        enable_monitoring now).1[i]? =
      some (some { e with true_label := some label }) := by
  have hfile := load_logs_strict_eq_some file logs hload
  subst hfile
  have hmem : e ∈ logs := List.getElem?_mem hi
  have hany : logs.any (fun x => x.prediction_id == pid) = true := by
    rw [List.any_eq_true]
    exact ⟨e, hmem, by simp [hmatch]⟩
  have hgoal :
      ((logs.map (fun x =>
          if x.prediction_id == pid
          then { x with true_label := some label } else x)).map some)[i]? =
        some (some { e with true_label := some label }) := by
    simp [List.getElem?_map, hi, hmatch]
  unfold process_feedback
  rw [load_logs_strict_map_some]
  simp only [hany, Bool.not_true, Bool.false_eq_true, if_false]
  cases performance_tracking with
  | false => simpa using hgoal
  | true =>
    cases hc : calculate_performance_metrics enable_monitoring
        ((logs.map (fun x =>
          if x.prediction_id == pid
          then { x with true_label := some label } else x)).map some)
        history none none now with
    | none => simpa [hc] using hgoal
    | some r => simpa [hc] using hgoal

/-- C1 witness: the amended theorem applied to the duplicate-id log at
the second occurrence. -/
theorem c1_witness :
    (process_feedback "X" 1 dupFile [] true true 0).1[1]? =
      some (some { dupEntryB with true_label := some 1 }) :=
  c1_feedback_updates_every_match dupFile [dupEntryA, dupEntryB] "X" 1 [] true true 0
    1 dupEntryB (by decide) (by decide) (by decide)

/-! Claim C3: feedback for an unknown prediction id. -/

/-- C3 counterexample: with a log holding only prediction id "A",
feedback for the unknown id "B" leaves the log and the metrics history
untouched, but no NotFoundError reaches the caller: the endpoint has
already answered success, and the background task only logs a warning. -/
theorem c3_counterexample :
    prediction_feedback true true = ApiResponse.success ∧
      process_feedback "B" 1 [some baseEntry] [] true true 0 =
        ([some baseEntry], []) := by decide

/-- C3 (amended): when no stored record matches the submitted
`prediction_id`, no write occurs — the log file and metrics history are
returned unchanged — but no NotFoundError is signalled: the HTTP endpoint
(monitor initialised, log file present) responds success regardless, and
the background task merely logs a warning. -/
theorem c3_unknown_id_no_mutation_no_error
    (file : List (Option LogEntry)) (logs : List LogEntry)
    (pid : String) (label : ℚ) (history : List (List (String × JVal)))
    (performance_tracking enable_monitoring : Bool) (now : Int)
    (hload : load_logs_strict file = some logs)
    (hmiss : ∀ e ∈ logs, e.prediction_id ≠ pid) :
    process_feedback pid label file history performance_tracking
        enable_monitoring now = (file, history) ∧
      prediction_feedback true true = ApiResponse.success := by
  refine ⟨?_, rfl⟩
  have hany : logs.any (fun e => e.prediction_id == pid) = false := by
    rw [Bool.eq_false_iff]
    intro hcontra
    rw [List.any_eq_true] at hcontra
    obtain ⟨e, hmem, hbeq⟩ := hcontra
    exact hmiss e hmem (by simpa using hbeq)
  unfold process_feedback
  rw [hload]
  simp [hany]

/-- C3 witness: the amended theorem applied to a log holding only
prediction id "p" and the unknown id "B". -/
theorem c3_witness :
    process_feedback "B" 1 [some baseEntry] [] false true 5 =
        ([some baseEntry], []) ∧
      prediction_feedback true true = ApiResponse.success :=
  c3_unknown_id_no_mutation_no_error [some baseEntry] [baseEntry] "B" 1 [] false true 5
    (by decide) (by decide)

/-! Claim C4: malformed lines in bulk read paths. -/

/-- C4 counterexample: on a log with one malformed line, the scan of
`calculate_performance_metrics` and the one of `get_recent_predictions`
both raise (result `none`), aborting the whole read instead of skipping
the line; only `extract_predictions_for_monitoring` skips it and
processes the remaining well-formed record. -/
theorem c4_counterexample :
    calculate_performance_metrics true [some baseEntry, Option.none] [] none none 0 =
        none ∧
      get_recent_predictions [some baseEntry, Option.none] 24 1000 0 = none ∧
      (extract_predictions_for_monitoring [some baseEntry, Option.none] none none).1 =
        [baseEntry.toRow] := by decide

/-- C4 (amended): a malformed line makes `calculate_performance_metrics`
and `get_recent_predictions` fail the whole read (the `json.loads`
exception propagates); only `extract_predictions_for_monitoring` skips
malformed lines, keeping one row per remaining well-formed record. -/
theorem c4_malformed_line_behavior
    (file : List (Option LogEntry)) (history : List (List (String × JVal)))
    (start_time end_time : Option Int) (now : Int)
    (hours : Int) (limit : ℕ) (now2 : Int)
    (h : Option.none ∈ file) :
    calculate_performance_metrics true file history start_time end_time now = none ∧
      get_recent_predictions file hours limit now2 = none ∧
      (extract_predictions_for_monitoring file none none).1.length =
        (file.filterMap id).length := by
  have hs := load_logs_strict_of_mem_none file h
  refine ⟨?_, ?_, ?_⟩
  · unfold calculate_performance_metrics
    rw [hs]
    simp
  · unfold get_recent_predictions
    rw [hs]
  · unfold extract_predictions_for_monitoring
    simp [load_logs_skipping_eq_filterMap]

/-- C4 witness: the amended theorem applied to a log whose second line is
malformed. -/
theorem c4_witness :
    calculate_performance_metrics true [some baseEntry, Option.none] [] none none 5 =
        none ∧
      get_recent_predictions [some baseEntry, Option.none] 24 50 7 = none ∧
      (extract_predictions_for_monitoring [some baseEntry, Option.none] none none).1.length =
        (([some baseEntry, Option.none] : List (Option LogEntry)).filterMap id).length :=
  c4_malformed_line_behavior [some baseEntry, Option.none] [] none none 5 24 50 7
    (by decide)

/-! Claim C5: the metrics time window. -/

/-- C5 counterexample: a record whose timestamp equals `end_time` is NOT
excluded by the metrics time filter — with window bounds 0 and 10, the
record at timestamp 10 survives the filter. -/
theorem c5_counterexample :
    filter_logs_by_time [{ baseEntry with timestamp := 10 }] (some 0) (some 10) =
      [{ baseEntry with timestamp := 10 }] := by decide

/-- C5 (amended): the metrics window is closed at BOTH ends: a record is
kept exactly when `start_time ≤ timestamp ≤ end_time`, so a record at
`end_time` is included (the source skips only records strictly after the
end bound), and one at `start_time` is included as the claim says. -/
theorem c5_window_closed (logs : List LogEntry) (s e : Int) (entry : LogEntry) :
    entry ∈ filter_logs_by_time logs (some s) (some e) ↔
      entry ∈ logs ∧ s ≤ entry.timestamp ∧ entry.timestamp ≤ e := by
  unfold filter_logs_by_time
  rw [if_pos (by simp)]
  rw [List.mem_filter]
  apply and_congr_right
  intro _
  unfold keep_in_window
  simp only [Option.any_some]
  split_ifs with h1 h2 <;> simp_all

/-! Claim C6: drift flags and the overall verdict. -/

/-- The drift-step loop preserves the per-feature flag law and the
overall-verdict law. -/
theorem drift_fold_invariant (ks : List ℚ → List ℚ → ℚ × ℚ)
    (ref cur : DriftFrame) (threshold : ℚ) (cols : List String)
    (acc : DriftReport)
    (hflags : ∀ p ∈ acc.features, p.2.drift_detected = decide (p.2.p_value < threshold))
    (hoverall : acc.overall_drift = true ↔ ∃ p ∈ acc.features, p.2.drift_detected = true) :
    (∀ p ∈ (cols.foldl (drift_step ks ref cur threshold) acc).features,
        p.2.drift_detected = decide (p.2.p_value < threshold)) ∧
      ((cols.foldl (drift_step ks ref cur threshold) acc).overall_drift = true ↔
        ∃ p ∈ (cols.foldl (drift_step ks ref cur threshold) acc).features,
          p.2.drift_detected = true) := by
  induction cols generalizing acc with
  | nil => exact ⟨hflags, hoverall⟩
  | cons c rest ih =>
    rw [List.foldl_cons]
    apply ih
    · intro p hp
      unfold drift_step at hp
      rcases hr : ref.cols.lookup c with _ | refc <;> rw [hr] at hp
      · exact hflags p hp
      · rcases hc : cur.cols.lookup c with _ | curc <;> rw [hc] at hp
        · exact hflags p hp
        · dsimp only at hp
          split_ifs at hp
          · exact hflags p hp
          · exact hflags p hp
          · simp only [List.mem_append, List.mem_singleton] at hp
            rcases hp with hp | hp
            · exact hflags p hp
            · subst hp; rfl
    · unfold drift_step
      rcases hr : ref.cols.lookup c with _ | refc
      · exact hoverall
      · rcases hc : cur.cols.lookup c with _ | curc
        · exact hoverall
        · dsimp only
          split_ifs
          · exact hoverall
          · exact hoverall
          · simp only [List.mem_append, List.mem_singleton, Bool.or_eq_true]
            constructor
            · intro h
              rcases h with h | h
              · obtain ⟨p, hp, hd⟩ := hoverall.mp h
                exact ⟨p, Or.inl hp, hd⟩
              · exact ⟨_, Or.inr rfl, h⟩
            · intro h
              obtain ⟨p, hp | hp, hd⟩ := h
              · exact Or.inl (hoverall.mpr ⟨p, hp, hd⟩)
              · subst hp
                exact Or.inr hd

/-- C6: in every drift report produced by `detect_data_drift`, each
examined feature carries `drift_detected = (p_value < threshold)`, and
`overall_drift` is true exactly when at least one examined feature has
`drift_detected = true`. -/
theorem c6_drift_flags (drift_detection : Bool)
    (ks : List ℚ → List ℚ → ℚ × ℚ) (ref cur : DriftFrame)
    (cols : List String) (threshold : ℚ) (now : Int)
    (hist hist2 : List DriftReport) (report : DriftReport)
    (h : detect_data_drift drift_detection ks ref cur cols threshold now hist =
      some (report, hist2)) :
    (∀ p ∈ report.features, p.2.drift_detected = decide (p.2.p_value < threshold)) ∧
      (report.overall_drift = true ↔
        ∃ p ∈ report.features, p.2.drift_detected = true) := by
  cases drift_detection with
  | false => exact absurd h (by simp [detect_data_drift])
  | true =>
    unfold detect_data_drift at h
    simp only [Bool.not_true, Bool.false_eq_true, if_false, Option.some_inj,
      Prod.mk.injEq] at h
    rw [← h.1]
    exact drift_fold_invariant ks ref cur threshold cols _
      (by intro p hp; simp at hp) (by simp)

/-- C6 witness: the theorem applied to one numeric column under the
constant KS oracle with threshold 1 yields the overall verdict of the
concrete report. -/
theorem c6_witness : driftReport0.overall_drift = true :=
  (c6_drift_flags true ksZero refFrame curFrame ["amount"] 1 0 [] [driftReport0]
      driftReport0 (by decide)).2.mpr
    ⟨("amount", ⟨0, 0, true⟩), by decide, rfl⟩

/-! Claim C7: round trip of a logged prediction. -/

/-- C7: a record appended by `log_prediction` (monitoring enabled) and
read back by parsing the log carries exactly the supplied
`prediction_id`, `timestamp`, `prediction`, `probability`, `true_label`
and `features`; only a falsy `metadata` is defaulted away. -/
theorem c7_round_trip (prediction_id : String) (features : List (String × JVal))
    (prediction : ℚ) (probability true_label : Option ℚ)
    (metadata : Option (List (String × String))) (now : Int)
    (file : List (Option LogEntry)) :
    load_logs_skipping
        (log_prediction true prediction_id features prediction probability
          true_label metadata now file) =
      load_logs_skipping file ++
        [{ prediction_id := prediction_id, timestamp := now,
           prediction := some prediction, probability := probability,
           true_label := true_label, features := features,
           metadata := match metadata with
             | some m => if m = [] then none else some m
             | none => none }] := by
  unfold log_prediction
  simp [load_logs_skipping_append, load_logs_skipping]

/-! Claim C8: metrics on zero labeled records. -/

/-- C8: when no record in the requested range carries a non-null
`true_label`, the metrics computation returns the empty dict — not an
error — and appends nothing to the metrics history (for any
enable_monitoring setting). -/
theorem c8_empty_labeled_data (enable_monitoring : Bool)
    (file : List (Option LogEntry)) (logs : List LogEntry)
    (history : List (List (String × JVal)))
    (start_time end_time : Option Int) (now : Int)
    (hload : load_logs_strict file = some logs)
    (hempty : labeled_pairs (filter_logs_by_time logs start_time end_time) = []) :
    calculate_performance_metrics enable_monitoring file history
        start_time end_time now = some ⟨[], history⟩ := by
  unfold calculate_performance_metrics
  cases enable_monitoring with
  | false => rfl
  | true =>
    rw [hload]
    simp [hempty]

/-- C8 witness: the theorem applied to a one-record log with no label in
the window [0, 10]. -/
theorem c8_witness :
    calculate_performance_metrics true [some baseEntry] [] (some 0) (some 10) 3 =
      some ⟨[], []⟩ :=
  c8_empty_labeled_data true [some baseEntry] [baseEntry] [] (some 0) (some 10) 3
    (by decide) (by decide)

/-! Claim C9: batch logging mutates the DataFrame of the caller. -/

/-- Overwriting an existing column in place leaves it retrievable with
the new values. -/
theorem lookup_map_replace (name : String) (vals : List JVal)
    (cols : List (String × List JVal)) (v : List JVal)
    (hl : cols.lookup name = some v) :
    (cols.map (fun p => if p.1 = name then (p.1, vals) else p)).lookup name =
      some vals := by
  induction cols with
  | nil => simp [List.lookup] at hl
  | cons hd tl ih =>
    by_cases hh : name = hd.1
    · subst hh
      simp only [List.map_cons, if_pos rfl]
      simp [List.lookup]
    · have h1 : (name == hd.1) = false := beq_eq_false_iff_ne.mpr hh
      simp only [List.lookup, h1] at hl
      simp only [List.map_cons, if_neg (Ne.symm hh)]
      simp only [List.lookup, h1]
      exact ih (by simpa using hl)

/-- Appending a fresh column makes it retrievable with its values. -/
theorem lookup_append_missing (name : String) (vals : List JVal)
    (cols : List (String × List JVal)) (hl : cols.lookup name = none) :
    (cols ++ [(name, vals)]).lookup name = some vals := by
  induction cols with
  | nil => simp [List.lookup]
  | cons hd tl ih =>
    by_cases hh : name = hd.1
    · subst hh
      simp [List.lookup] at hl
    · have h1 : (name == hd.1) = false := beq_eq_false_iff_ne.mpr hh
      simp only [List.lookup, h1] at hl
      simp only [List.cons_append, List.lookup, h1]
      exact ih (by simpa using hl)

/-- Setting a column makes it retrievable with exactly the new values. -/
theorem lookup_setCol_self (df : BatchFrame) (name : String) (vals : List JVal) :
    ((df.setCol name vals).cols).lookup name = some vals := by
  unfold BatchFrame.setCol BatchFrame.hasCol
  split_ifs with h
  · rcases hl : df.cols.lookup name with _ | v
    · rw [hl] at h; simp at h
    · exact lookup_map_replace name vals df.cols v hl
  · rcases hl : df.cols.lookup name with _ | v
    · exact lookup_append_missing name vals df.cols hl
    · rw [hl] at h; simp at h

/-- C9: when `log_batch_predictions` is called (monitoring enabled) with
no id column, or with an id column name that is not a column of the
frame, it assigns a generated `prediction_id` column on the DataFrame of
the caller — an in-place mutation: the caller-visible frame afterwards
carries the generated ids, and (when it had no `prediction_id` column
before) is no longer equal to the frame passed in. -/
theorem c9_batch_mutates_input_frame (df : BatchFrame)
    (features_cols : List String) (prediction_col : String)
    (probability_col true_label_col id_col : Option String)
    (date : String) (now : Int) (file : List (Option LogEntry))
    (hid : id_col.all (fun c => !df.hasCol c) = true) :
    ((log_batch_predictions true df features_cols prediction_col probability_col
        true_label_col id_col date now file).1).cols.lookup "prediction_id" =
        some (batch_ids date df.nrows) ∧
      (df.hasCol "prediction_id" = false →
        (log_batch_predictions true df features_cols prediction_col probability_col
          true_label_col id_col date now file).1 ≠ df) := by
  have hres : (log_batch_predictions true df features_cols prediction_col
      probability_col true_label_col id_col date now file).1 =
      df.setCol "prediction_id" (batch_ids date df.nrows) := by
    cases id_col with
    | none =>
      unfold log_batch_predictions
      simp
    | some c =>
      have hc : df.hasCol c = false := by simpa [Option.all] using hid
      unfold log_batch_predictions
      simp [hc]
  refine ⟨?_, ?_⟩
  · rw [hres]
    exact lookup_setCol_self df "prediction_id" (batch_ids date df.nrows)
  · intro hno heq
    have := lookup_setCol_self df "prediction_id" (batch_ids date df.nrows)
    rw [← hres, heq] at this
    unfold BatchFrame.hasCol at hno
    rw [this] at hno
    simp at hno

/-- C9 witness: the theorem applied to a two-row frame with only an
"amount" column and no id column named. -/
theorem c9_witness :
    ((log_batch_predictions true df0 ["amount"] "prediction" none none none
        "20240101" 0 []).1).cols.lookup "prediction_id" =
      some (batch_ids "20240101" df0.nrows) := by
  have h := c9_batch_mutates_input_frame df0 ["amount"] "prediction" none none
    none "20240101" 0 [] (by decide)
  exact h.1

/-! Claim C10: successful feedback recomputes metrics and appends a
snapshot. -/

/-- C10 counterexample: feedback with label 2 against a log predicting 0
is a successful submission — the record is relabeled and the log
rewritten — yet NO Metrics Snapshot is appended: the recomputation is
triggered but `precision_score` raises ValueError (two classes present,
pos_label 1 absent), `process_feedback` swallows the exception after the
log write, and the metrics history stays empty. -/
theorem c10_counterexample :
    process_feedback "Y" 2 [some { baseEntry with prediction_id := "Y" }]
        [] true true 0 =
      ([some { baseEntry with prediction_id := "Y", true_label := some 2 }],
        []) := by decide

/-- C10 (amended): with performance tracking and monitoring enabled, a
feedback submission that matches at least one stored record rewrites the
log AND appends exactly one new Metrics Snapshot to the metrics history
— the feedback path writes both stores — PROVIDED the labeled data after
the update passes the sklearn validity checks (no null predictions,
integral values, at most two classes with class 1 present when there are
two); otherwise the sklearn ValueError is swallowed after the log
rewrite and nothing is appended. -/
theorem c10_feedback_appends_snapshot
    (file : List (Option LogEntry)) (logs : List LogEntry)
    (history : List (List (String × JVal)))
    (pid : String) (label : ℚ) (now : Int)
    (hload : load_logs_strict file = some logs)
    (hmatch : logs.any (fun e => e.prediction_id == pid) = true)
    (hok : sklearn_metrics_ok (labeled_pairs (logs.map (fun x =>
      if x.prediction_id == pid
      then { x with true_label := some label } else x))) = true) :
    ((process_feedback pid label file history true true now).2).length =
      history.length + 1 := by
  obtain ⟨e, hmem, hbeq⟩ := List.any_eq_true.mp hmatch
  set upd := fun x : LogEntry =>
    if x.prediction_id == pid then { x with true_label := some label } else x with hupd
  have hne : labeled_pairs (logs.map upd) ≠ [] := by
    intro hnil
    rw [labeled_pairs, List.filterMap_eq_nil_iff] at hnil
    have hmem2 : upd e ∈ logs.map upd := List.mem_map_of_mem upd hmem
    have := hnil _ hmem2
    rw [hupd] at this
    simp only [hbeq, if_true] at this
    simp at this
  have hie : (labeled_pairs (logs.map upd)).isEmpty = false := by
    simpa using hne
  have hcalc : calculate_performance_metrics true ((logs.map upd).map some)
      history none none now =
      some ⟨metrics_dict (labeled_pairs (logs.map upd)) now,
        history ++ [metrics_dict (labeled_pairs (logs.map upd)) now]⟩ := by
    unfold calculate_performance_metrics
    rw [load_logs_strict_map_some]
    have hfilter : filter_logs_by_time (logs.map upd) none none = logs.map upd := rfl
    simp only [Bool.not_true, Bool.false_eq_true, if_false, hfilter, hie, hok]
  unfold process_feedback
  rw [hload]
  simp only [hmatch, Bool.not_true, Bool.false_eq_true, if_false, if_true, ← hupd]
  rw [hcalc]
  simp

/-- C10 witness: the amended theorem applied to a one-record log whose
record the feedback matches with the valid binary label 1. -/
theorem c10_witness :
    ((process_feedback "Z" 1 [some { baseEntry with prediction_id := "Z" }]
        [] true true 0).2).length = 0 + 1 :=
  c10_feedback_appends_snapshot [some { baseEntry with prediction_id := "Z" }]
    [{ baseEntry with prediction_id := "Z" }] [] "Z" 1 0 (by decide) (by decide)
    (by decide)

/-! Claim C2: the content of a Metrics Snapshot. -/

set_option maxRecDepth 100000 in
/-- C2 counterexample: on the 100-record scenario of the spec, the
computed metrics dict carries NO "tp" key (nor any confusion-matrix cell
count): the source stores only count, accuracy, precision, recall, f1
and timestamp. -/
theorem c2_counterexample :
    (calculate_performance_metrics true c2_file [] none none 7).map
      (fun r => r.metrics.lookup "tp") = some none := by decide

set_option maxRecDepth 100000 in
/-- C2 (amended): on the scenario of 100 labeled records (80 true
negatives, 20 false negatives, no positive prediction) the snapshot is
exactly `c2_metrics`: accuracy 4/5, precision 0, recall 0, f1 0, count
100, and a timestamp — with no tp/tn/fp/fn cells, which the source never
computes. One snapshot is appended to the empty history. -/
theorem c2_metrics_scenario :
    calculate_performance_metrics true c2_file [] none none 7 =
        some ⟨c2_metrics, [c2_metrics]⟩ ∧
      c2_metrics.lookup "count" = some (JVal.num 100) ∧
      c2_metrics.lookup "accuracy" = some (JVal.num (4 / 5)) ∧
      c2_metrics.lookup "precision" = some (JVal.num 0) ∧
      c2_metrics.lookup "recall" = some (JVal.num 0) ∧
      c2_metrics.lookup "f1" = some (JVal.num 0) ∧
      c2_metrics.lookup "tp" = none ∧ c2_metrics.lookup "tn" = none ∧
      c2_metrics.lookup "fp" = none ∧ c2_metrics.lookup "fn" = none := by
  have hpairs : labeled_pairs (filter_logs_by_time c2_logs none none) = c2_pairs := by
    decide
  have hcount : c2_pairs.length = 100 := by decide
  have hc80 : c2_pairs.countP (fun p => decide (p.2 = some p.1)) = 80 := by decide
  have htp : tp_count c2_pairs = 0 := by decide
  have hfp : fp_count c2_pairs = 0 := by decide
  have hfn : fn_count c2_pairs = 20 := by decide
  have hacc : accuracy c2_pairs = 4 / 5 := by
    unfold accuracy
    rw [hc80, hcount]
    norm_num
  have hprec : precision c2_pairs = 0 := by
    unfold precision
    rw [htp, hfp]
    norm_num
  have hrec : recall_score c2_pairs = 0 := by
    unfold recall_score
    rw [htp, hfn]
    norm_num
  have hf1 : f1 c2_pairs = 0 := by
    unfold f1
    rw [hprec, hrec]
    norm_num
  have hmd : metrics_dict c2_pairs 7 = c2_metrics := by
    unfold metrics_dict c2_metrics
    rw [hcount, hacc, hprec, hrec, hf1]
    norm_num
  have hload : load_logs_strict c2_file = some c2_logs :=
    load_logs_strict_map_some c2_logs
  have hie : c2_pairs.isEmpty = false := by decide
  have hok : sklearn_metrics_ok c2_pairs = true := by decide
  refine ⟨?_, rfl, rfl, rfl, rfl, rfl, rfl, rfl, rfl, rfl⟩
  unfold calculate_performance_metrics
  rw [hload]
  simp only [Bool.not_true, Bool.false_eq_true, if_false, hpairs, hie, hok, hmd]
  simp

end FraudMonitoring
